import Mathlib

/-!
Shallow embedding of the WarBlog plugin (main.ts).

The source has four behaviourally relevant pieces, embedded here:
an idempotent symlink manager (setupSymlink / removeSymlink), a
frontmatter validator built on a zod object schema (BlogSchema /
validateFrontmatter), a password gate (PasswordModal.submit) and a
publish flow (updateBlog) that validates every markdown file whose
vault path starts with the configured symlink name, then stages,
commits and pushes through a git client.

Modelling conventions:
- The filesystem state is abstracted to the two paths the code ever
  queries or mutates: existence of the target directory and the
  occupant of the link path (assumed distinct paths).  Mutations are
  also recorded as an explicit operation trace.
- path.join is modelled as separator concatenation; no claim depends
  on path normalisation.
- existsSync follows symbolic links, so on a dangling link (one whose
  own referent is gone) it answers false; the link occupant therefore
  carries whether its referent exists.  On that path the source skips
  the lstat/readlink/unlink block, and the following fs.symlink fails
  with EEXIST, caught and reported as a failed link creation: the
  stale link is not repaired.  A successful fs.symlink is the only
  other outcome of the call; the failing call mutates nothing and so
  contributes nothing to the mutation trace.
- Exceptions inside validateFrontmatter's try block are modelled by
  an Except-valued body (validateAttempt) whose error is caught and
  mapped to false, exactly as the catch clause does.
- The git client is an opaque collaborator: the issued operations are
  recorded as a trace, and the status result the code branches on is
  an input of the publish environment.
-/

/-- The persisted Settings record of the plugin. -/
structure Settings where
  astroRoot : String
  contentFolder : String
  symlinkName : String
  password : String
deriving DecidableEq, Repr

/-- DEFAULT_SETTINGS from the source. -/
def DEFAULT_SETTINGS : Settings :=
  { astroRoot := ""
    contentFolder := "src/content/blog"
    symlinkName := "Blog"
    password := "" }

/-- path.join of the two components the code joins; normalisation is irrelevant here. -/
def pathJoin (a b : String) : String := a ++ "/" ++ b

/-- targetPath = path.join(settings.astroRoot, settings.contentFolder). -/
def targetPath (s : Settings) : String := pathJoin s.astroRoot s.contentFolder

/-- What occupies the link path: nothing, a symbolic link with a recorded
target (readlinkSync) together with whether that referent itself exists
(existsSync follows links, so a dangling link reads as non-existent), or
some non-link artifact (a real file or folder). -/
inductive Occupant where
  | absent
  | link (target : String) (referentExists : Bool)
  | nonLink
deriving DecidableEq, Repr

/-- The filesystem state seen by the link manager: whether the target
directory exists, and what occupies the link path.  The two paths are
assumed distinct, as in any sane configuration. -/
structure FsState where
  targetExists : Bool
  linkOcc : Occupant
deriving DecidableEq, Repr

/-- A filesystem mutation issued by the link manager; both operate on the
link path, the only path the source ever mutates. -/
inductive FsOp where
  | unlink
  | symlink (target : String)
deriving DecidableEq, Repr

/-- The user-visible report of a setupSymlink run.  silent: the function
returned without emitting a notice (non-filesystem adapter, or the link
already points at the target).  linkFailed models the catch branch around
fs.symlink, reached when a dangling link slips past the existsSync guard
and fs.symlink fails with EEXIST. -/
inductive LinkReport where
  | silent
  | targetMissing
  | nameConflict
  | linked
  | linkFailed
deriving DecidableEq, Repr

/-- Reports that surface a failure to the user ("Blog folder not found",
name conflict, link creation failure); silent and linked are the two ways
setupSymlink completes successfully. -/
def LinkReport.isFailure : LinkReport → Bool
  | .targetMissing => true
  | .nameConflict => true
  | .linkFailed => true
  | .silent => false
  | .linked => false

/-- Result of one setupSymlink run: the new filesystem state, the trace of
filesystem mutations issued, and the report shown to the user. -/
structure LinkResult where
  fs : FsState
  ops : List FsOp
  report : LinkReport
deriving DecidableEq, Repr

/-- setupSymlink from the source.  adapterIsFs models the
`adapter instanceof FileSystemAdapter` guard (false on non-desktop hosts,
where the function returns at once).  Control flow mirrors the source:
missing target is reported and nothing happens; the existsSync(linkPath)
guard follows links, so only a link with a live referent reaches the
lstat/readlink block, where it is kept if it already reads back as the
exact target and unlinked otherwise; a non-link occupant is refused; a
dangling link is invisible to the guard, so fs.symlink is attempted on
the still-occupied path and fails with EEXIST, caught and reported,
mutating nothing; on a free path fs.symlink creates the link, whose
referent is the target directory that was just checked to exist. -/
def setupSymlink (adapterIsFs : Bool) (s : Settings) (fs : FsState) : LinkResult :=
  if adapterIsFs = false then ⟨fs, [], .silent⟩
  else if fs.targetExists = false then ⟨fs, [], .targetMissing⟩
  else
    match fs.linkOcc with
    | .link t true =>
      if t = targetPath s then ⟨fs, [], .silent⟩
      else
        ⟨{ fs with linkOcc := .link (targetPath s) true },
          [.unlink, .symlink (targetPath s)], .linked⟩
    | .nonLink => ⟨fs, [], .nameConflict⟩
    | .link _ false => ⟨fs, [], .linkFailed⟩
    | .absent =>
      ⟨{ fs with linkOcc := .link (targetPath s) true },
        [.symlink (targetPath s)], .linked⟩

/-- Result of one removeSymlink run: new state and mutation trace. -/
structure UnlinkResult where
  fs : FsState
  ops : List FsOp
deriving DecidableEq, Repr

/-- removeSymlink from the source: unlink the link path only when
existsSync answers true for it and lstat reports a symbolic link.  Since
existsSync follows links, a dangling link fails the first conjunct and is
left in place. -/
def removeSymlink (adapterIsFs : Bool) (fs : FsState) : UnlinkResult :=
  if adapterIsFs = false then ⟨fs, []⟩
  else
    match fs.linkOcc with
    | .link _ true => ⟨{ fs with linkOcc := .absent }, [.unlink]⟩
    | _ => ⟨fs, []⟩

/-- A YAML value as gray-matter hands it to zod.  dateOk records whether
the JavaScript Date constructor accepts the value (what z.coerce.date
checks): it is carried where it is not determined by the shape.  A YAML
native date and a boolean always coerce to a valid Date. -/
inductive YamlValue where
  | vstr (s : String) (dateOk : Bool)
  | vbool (b : Bool)
  | vdate
  | vother (dateOk : Bool)
deriving DecidableEq, Repr

/-- z.string(): only a string passes. -/
def isString : YamlValue → Bool
  | .vstr _ _ => true
  | _ => false

/-- z.boolean(): only a boolean passes. -/
def isBool : YamlValue → Bool
  | .vbool _ => true
  | _ => false

/-- z.coerce.date(): new Date(value) must be a valid date. -/
def dateCoercible : YamlValue → Bool
  | .vstr _ ok => ok
  | .vbool _ => true
  | .vdate => true
  | .vother ok => ok

/-- The frontmatter mapping restricted to the six keys BlogSchema reads;
zod strips unknown keys, so others are irrelevant. -/
structure FmData where
  title : Option YamlValue
  description : Option YamlValue
  pubDate : Option YamlValue
  updatedDate : Option YamlValue
  heroImage : Option YamlValue
  published : Option YamlValue
deriving DecidableEq, Repr

/-- One zod issue as the source renders it: the field path and a message. -/
structure Issue where
  path : String
  message : String
deriving DecidableEq, Repr

/-- Issues of a required z.string() field: missing is Required, a
non-string value is a type error. -/
def checkString (name : String) : Option YamlValue → List Issue
  | none => [⟨name, "Required"⟩]
  | some v => if isString v then [] else [⟨name, "Expected string"⟩]

/-- Issues of the required z.coerce.date() field: a missing value is
coerced to an invalid Date, so missing and uncoercible both yield the
invalid-date issue. -/
def checkDate (name : String) : Option YamlValue → List Issue
  | none => [⟨name, "Invalid date"⟩]
  | some v => if dateCoercible v then [] else [⟨name, "Invalid date"⟩]

/-- Issues of an optional z.string() field. -/
def checkOptString (name : String) : Option YamlValue → List Issue
  | none => []
  | some v => if isString v then [] else [⟨name, "Expected string"⟩]

/-- Issues of the optional z.coerce.date() field. -/
def checkOptDate (name : String) : Option YamlValue → List Issue
  | none => []
  | some v => if dateCoercible v then [] else [⟨name, "Invalid date"⟩]

/-- Issues of the optional z.boolean() field. -/
def checkOptBool (name : String) : Option YamlValue → List Issue
  | none => []
  | some v => if isBool v then [] else [⟨name, "Expected boolean"⟩]

/-- BlogSchema.parse collects the issues of every field of the object in
one pass, in schema key order. -/
def BlogSchema.issues (d : FmData) : List Issue :=
  checkString "title" d.title
    ++ checkString "description" d.description
    ++ checkDate "pubDate" d.pubDate
    ++ checkOptDate "updatedDate" d.updatedDate
    ++ checkOptString "heroImage" d.heroImage
    ++ checkOptBool "published" d.published

/-- The required fields of BlogSchema that are absent from the data, in
schema order. -/
def missingRequired (d : FmData) : List String :=
  (if d.title.isNone then ["title"] else [])
    ++ (if d.description.isNone then ["description"] else [])
    ++ (if d.pubDate.isNone then ["pubDate"] else [])

/-- The state of one vault file as validateFrontmatter observes it:
the adapter read throws, gray-matter throws on the content, or a
frontmatter mapping is extracted. -/
inductive FileState where
  | unreadable
  | unparseable
  | parsed (d : FmData)
deriving DecidableEq, Repr

/-- The exceptions the try block of validateFrontmatter can raise. -/
inductive VError where
  | readError
  | matterError
  | zodError (issues : List Issue)
deriving DecidableEq, Repr

/-- The try block of validateFrontmatter: read, parse, BlogSchema.parse,
then true; any step may throw. -/
def validateAttempt : FileState → Except VError Unit
  | .unreadable => .error .readError
  | .unparseable => .error .matterError
  | .parsed d =>
    if (BlogSchema.issues d).isEmpty then .ok ()
    else .error (.zodError (BlogSchema.issues d))

/-- validateFrontmatter: the catch clause maps every exception to false. -/
def validateFrontmatter (fs : FileState) : Bool :=
  match validateAttempt fs with
  | .ok _ => true
  | .error _ => false

/-- The field failures the catch clause lists in its notice: the issues of
a caught ZodError, and nothing for any other exception or for success. -/
def reportedIssues (fs : FileState) : List Issue :=
  match validateAttempt fs with
  | .error (.zodError l) => l
  | _ => []

/-- A markdown file of the vault as getMarkdownFiles returns it, together
with the state validateFrontmatter would observe for it. -/
structure MdFile where
  path : String
  name : String
  state : FileState
deriving DecidableEq, Repr

/-- The status() result fields the source branches on. -/
structure GitStatus where
  modified : List String
  created : List String
  deleted : List String
deriving DecidableEq, Repr

/-- A version-control operation issued by updateBlog.  commit carries its
message and the fact that gpg signing is disabled. -/
inductive GitOp where
  | add (pathspec : String)
  | status
  | commit (message : String) (noGpgSign : Bool)
  | push
deriving DecidableEq, Repr

/-- The environment of one publish attempt: whether this.git was
initialised (astroRoot was set at load), the vault's markdown file list,
the status the git client reports after staging, and the timestamp. -/
structure PublishEnv where
  gitConfigured : Bool
  vaultFiles : List MdFile
  status : GitStatus
  timestamp : String
deriving DecidableEq, Repr

/-- The terminal notice of one updateBlog run. -/
inductive PublishOutcome where
  | gitNotConfigured
  | validationFailed (name : String)
  | noChanges
  | updated
deriving DecidableEq, Repr

/-- Result of one updateBlog run: its outcome and the trace of git
operations issued. -/
structure PublishResult where
  outcome : PublishOutcome
  ops : List GitOp
deriving DecidableEq, Repr

/-- The JavaScript String.startsWith test, at character level. -/
def jsStartsWith (s p : String) : Bool := p.data.isPrefixOf s.data

/-- The files updateBlog enumerates: every markdown file whose vault path
starts with settings.symlinkName as a string prefix. -/
def enumeratedFiles (s : Settings) (env : PublishEnv) : List MdFile :=
  env.vaultFiles.filter (fun f => jsStartsWith f.path s.symlinkName)

/-- updateBlog from the source: bail out if git is unconfigured; validate
the enumerated files in order, stopping at the first failure before any
git operation; then stage the content folder glob, query status, and
either stop with no changes or commit (unsigned, timestamped message) and
push. -/
def updateBlog (s : Settings) (env : PublishEnv) : PublishResult :=
  if env.gitConfigured = false then ⟨.gitNotConfigured, []⟩
  else
    match (enumeratedFiles s env).find? (fun f => !validateFrontmatter f.state) with
    | some f => ⟨.validationFailed f.name, []⟩
    | none =>
      let staged : List GitOp := [.add (s.contentFolder ++ "/*"), .status]
      if env.status.modified.isEmpty && env.status.created.isEmpty
          && env.status.deleted.isEmpty then
        ⟨.noChanges, staged⟩
      else
        ⟨.updated,
          staged ++ [.commit ("Update blog - " ++ env.timestamp) true, .push]⟩

/-- What PasswordModal.submit does with the entered password. -/
inductive SubmitAction where
  | promptEmpty
  | wrongPassword
  | runUpdate
deriving DecidableEq, Repr

/-- PasswordModal.submit: an empty password is rejected first (!password),
then a mismatch with the configured password is rejected; only an exact
match closes the modal and runs updateBlog. -/
def PasswordModal.submit (password configured : String) : SubmitAction :=
  if password = "" then .promptEmpty
  else if password ≠ configured then .wrongPassword
  else .runUpdate

/-- One full publish attempt: the password gate, then updateBlog when and
only when the gate fires; none means updateBlog was never entered. -/
def publishAttempt (password : String) (s : Settings) (env : PublishEnv) :
    Option PublishResult :=
  match PasswordModal.submit password s.password with
  | .runUpdate => some (updateBlog s env)
  | _ => none

/-! Theorems.  Each claim Cn has one theorem, with a closed witness when
the theorem carries hypotheses. -/

theorem reportedIssues_parsed (d : FmData) :
    reportedIssues (.parsed d) = BlogSchema.issues d := by
  unfold reportedIssues validateAttempt
  by_cases h : (BlogSchema.issues d).isEmpty
  · simp [h]
    exact List.isEmpty_iff.mp h
  · simp [h]

/-- C3: PasswordModal.submit runs updateBlog exactly when the entered
password is non-empty and equals the configured one; in particular an
empty entry is rejected even against an empty configured password, and a
mismatch does nothing further. -/
theorem submit_runs_update_iff (p c : String) :
    PasswordModal.submit p c = .runUpdate ↔ (p ≠ "" ∧ p = c) := by
  unfold PasswordModal.submit
  by_cases h1 : p = ""
  · simp [h1]
  · by_cases h2 : p = c <;> simp [h1, h2]

theorem submit_runs_update_iff_witness :
    PasswordModal.submit "s3cret" "s3cret" = .runUpdate ∧
      PasswordModal.submit "" "" ≠ .runUpdate := by
  constructor
  · exact (submit_runs_update_iff "s3cret" "s3cret").mpr ⟨by decide, rfl⟩
  · intro h
    exact absurd ((submit_runs_update_iff "" "").mp h).1 (by simp)

/-- C8: when the target directory is missing, setupSymlink leaves the
filesystem untouched and issues no mutation; on a filesystem adapter it
reports the target as missing.  The embedding is a total function, so no
error escapes. -/
theorem setupSymlink_target_missing (a : Bool) (s : Settings) (fs : FsState)
    (h : fs.targetExists = false) :
    (setupSymlink a s fs).fs = fs ∧ (setupSymlink a s fs).ops = [] ∧
      (a = true → (setupSymlink a s fs).report = .targetMissing) := by
  unfold setupSymlink
  cases a <;> simp [h]

theorem setupSymlink_target_missing_witness :
    (setupSymlink true DEFAULT_SETTINGS ⟨false, .absent⟩).fs = ⟨false, .absent⟩ ∧
      (setupSymlink true DEFAULT_SETTINGS ⟨false, .absent⟩).ops = [] ∧
      (setupSymlink true DEFAULT_SETTINGS ⟨false, .absent⟩).report = .targetMissing := by
  have h := setupSymlink_target_missing true DEFAULT_SETTINGS ⟨false, .absent⟩ rfl
  exact ⟨h.1, h.2.1, h.2.2 rfl⟩

/-- C7 counterexample: with the target directory present and the link
path holding a dangling stale link (its own referent gone, its recorded
target differing from the current one), setupSymlink removes nothing and
creates nothing: existsSync follows the link and answers false, the
unlink branch is skipped, and fs.symlink fails with EEXIST, so the stale
link survives and a failed link creation is reported. -/
theorem setupSymlink_dangling_stale_not_repaired :
    (setupSymlink true DEFAULT_SETTINGS ⟨true, .link "old" false⟩).ops = [] ∧
      (setupSymlink true DEFAULT_SETTINGS ⟨true, .link "old" false⟩).fs
        = ⟨true, .link "old" false⟩ ∧
      (setupSymlink true DEFAULT_SETTINGS ⟨true, .link "old" false⟩).report
        = .linkFailed := by
  decide

/-- C7 as amended: a stale symlink whose own referent still exists (so
existsSync sees it), with readlink differing from the current target and
the target directory present, is unlinked and replaced by a link to the
current target.  A dangling stale link is instead skipped by the
existsSync guard and the subsequent creation fails without repairing
it. -/
theorem setupSymlink_repairs_stale_link (s : Settings) (fs : FsState) (t : String)
    (hT : fs.targetExists = true) (hL : fs.linkOcc = .link t true)
    (hne : t ≠ targetPath s) :
    (setupSymlink true s fs).ops = [.unlink, .symlink (targetPath s)] ∧
      (setupSymlink true s fs).fs.linkOcc = .link (targetPath s) true := by
  unfold setupSymlink
  simp [hT, hL, hne]

theorem setupSymlink_repairs_stale_link_witness :
    (setupSymlink true DEFAULT_SETTINGS ⟨true, .link "old" true⟩).ops
        = [.unlink, .symlink (targetPath DEFAULT_SETTINGS)] ∧
      (setupSymlink true DEFAULT_SETTINGS ⟨true, .link "old" true⟩).fs.linkOcc
        = .link (targetPath DEFAULT_SETTINGS) true :=
  setupSymlink_repairs_stale_link DEFAULT_SETTINGS ⟨true, .link "old" true⟩ "old"
    rfl rfl (by decide)

/-- C2: neither link-manager operation ever harms a non-link occupant of
the link path: with a non-link there, setupSymlink changes nothing and
issues no mutation (and, when it gets past the adapter and target checks,
reports the name conflict), and removeSymlink unlinks only when the
occupant really is a symbolic link. -/
theorem linkManager_preserves_nonLink (a : Bool) (s : Settings) (fs : FsState) :
    (fs.linkOcc = .nonLink →
      (setupSymlink a s fs).fs = fs ∧ (setupSymlink a s fs).ops = []) ∧
    ((removeSymlink a fs).ops ≠ [] → ∃ t, fs.linkOcc = .link t true) ∧
    (fs.linkOcc = .nonLink → (removeSymlink a fs).fs = fs) ∧
    (a = true → fs.targetExists = true → fs.linkOcc = .nonLink →
      (setupSymlink a s fs).report = .nameConflict) := by
  refine ⟨fun h => ?_, fun h => ?_, fun h => ?_, fun ha hT h => ?_⟩
  · unfold setupSymlink
    cases a <;> cases hE : fs.targetExists <;> simp [h, hE]
  · unfold removeSymlink at h
    cases a with
    | false => simp at h
    | true =>
      cases hL : fs.linkOcc with
      | absent => simp [hL] at h
      | link t r =>
        cases r with
        | false => simp [hL] at h
        | true => exact ⟨t, rfl⟩
      | nonLink => simp [hL] at h
  · unfold removeSymlink
    cases a <;> simp [h]
  · unfold setupSymlink
    simp [ha, hT, h]

theorem linkManager_preserves_nonLink_witness :
    (setupSymlink true DEFAULT_SETTINGS ⟨true, .nonLink⟩).fs = ⟨true, .nonLink⟩ ∧
      (setupSymlink true DEFAULT_SETTINGS ⟨true, .nonLink⟩).ops = [] ∧
      (removeSymlink true ⟨true, .nonLink⟩).fs = ⟨true, .nonLink⟩ ∧
      (setupSymlink true DEFAULT_SETTINGS ⟨true, .nonLink⟩).report = .nameConflict := by
  have h := linkManager_preserves_nonLink true DEFAULT_SETTINGS ⟨true, .nonLink⟩
  exact ⟨(h.1 rfl).1, (h.1 rfl).2, h.2.2.1 rfl, h.2.2.2 rfl rfl rfl⟩

/-- C4: setupSymlink is idempotent.  When the target directory exists and
the link already points at the exact current target (so its referent, the
target directory itself, exists) it mutates nothing and completes without
any failure report; and whatever the starting state, a second run with
the same configuration reaches the same end state as the first while
issuing no filesystem mutation. -/
theorem setupSymlink_idempotent (a : Bool) (s : Settings) (fs : FsState) :
    (fs.targetExists = true → fs.linkOcc = .link (targetPath s) true →
      (setupSymlink a s fs).fs = fs ∧ (setupSymlink a s fs).ops = [] ∧
        (setupSymlink a s fs).report.isFailure = false) ∧
    (setupSymlink a s (setupSymlink a s fs).fs).fs = (setupSymlink a s fs).fs ∧
    (setupSymlink a s (setupSymlink a s fs).fs).ops = [] := by
  refine ⟨fun hE h => ?_, ?_⟩
  · unfold setupSymlink
    cases a <;> simp [h, hE, LinkReport.isFailure]
  · unfold setupSymlink
    cases a with
    | false => simp
    | true =>
      cases hE : fs.targetExists with
      | false => simp [hE]
      | true =>
        cases hL : fs.linkOcc with
        | absent => simp [hE, hL]
        | nonLink => simp [hE, hL]
        | link t r =>
          cases r with
          | false => simp [hE, hL]
          | true => by_cases ht : t = targetPath s <;> simp [hE, hL, ht]

theorem setupSymlink_idempotent_witness :
    ((setupSymlink true DEFAULT_SETTINGS
        ⟨true, .link (targetPath DEFAULT_SETTINGS) true⟩).fs
      = ⟨true, .link (targetPath DEFAULT_SETTINGS) true⟩) ∧
    (setupSymlink true DEFAULT_SETTINGS
        ⟨true, .link (targetPath DEFAULT_SETTINGS) true⟩).ops = [] ∧
    (setupSymlink true DEFAULT_SETTINGS
        ⟨true, .link (targetPath DEFAULT_SETTINGS) true⟩).report.isFailure = false ∧
    (setupSymlink true DEFAULT_SETTINGS
        (setupSymlink true DEFAULT_SETTINGS ⟨true, .absent⟩).fs).fs
      = (setupSymlink true DEFAULT_SETTINGS ⟨true, .absent⟩).fs ∧
    (setupSymlink true DEFAULT_SETTINGS
        (setupSymlink true DEFAULT_SETTINGS ⟨true, .absent⟩).fs).ops = [] := by
  have h1 := setupSymlink_idempotent true DEFAULT_SETTINGS
    ⟨true, .link (targetPath DEFAULT_SETTINGS) true⟩
  have h2 := setupSymlink_idempotent true DEFAULT_SETTINGS ⟨true, .absent⟩
  exact ⟨(h1.1 rfl rfl).1, (h1.1 rfl rfl).2.1, (h1.1 rfl rfl).2.2, h2.2.1, h2.2.2⟩

/-- C1: within a publish attempt that got past the password gate, a single
failing content item means the git trace of the attempt is empty: nothing
is staged, no status query, no commit, no push. -/
theorem publish_validation_atomic (pw : String) (s : Settings) (env : PublishEnv)
    (r : PublishResult) (hr : publishAttempt pw s env = some r)
    (hbad : ∃ f ∈ enumeratedFiles s env, validateFrontmatter f.state = false) :
    r.ops = [] := by
  have hru : r = updateBlog s env := by
    unfold publishAttempt at hr
    cases h : PasswordModal.submit pw s.password <;> simp [h] at hr
    exact hr.symm
  subst hru
  obtain ⟨f, hf, hval⟩ := hbad
  have hsome : ((enumeratedFiles s env).find?
      (fun f => !validateFrontmatter f.state)).isSome :=
    List.find?_isSome.mpr ⟨f, hf, by simp [hval]⟩
  obtain ⟨g, hg⟩ := Option.isSome_iff_exists.mp hsome
  unfold updateBlog
  cases hG : env.gitConfigured <;> simp [hG, hg]

theorem publish_validation_atomic_witness :
    (updateBlog ⟨"", "src/content/blog", "Blog", "p"⟩
      ⟨true, [⟨"Blog/a.md", "a.md", .unreadable⟩], ⟨[], [], []⟩, "t"⟩).ops = [] :=
  publish_validation_atomic "p" ⟨"", "src/content/blog", "Blog", "p"⟩
    ⟨true, [⟨"Blog/a.md", "a.md", .unreadable⟩], ⟨[], [], []⟩, "t"⟩
    (updateBlog ⟨"", "src/content/blog", "Blog", "p"⟩
      ⟨true, [⟨"Blog/a.md", "a.md", .unreadable⟩], ⟨[], [], []⟩, "t"⟩)
    (by decide)
    ⟨⟨"Blog/a.md", "a.md", .unreadable⟩, by decide, by decide⟩

/-- C5: with git configured, every enumerated file valid, and the status
query reporting nothing added, modified or deleted, updateBlog ends with
the no-changes report having issued only the stage and the status query:
no commit and no push. -/
theorem updateBlog_no_changes (s : Settings) (env : PublishEnv)
    (hg : env.gitConfigured = true)
    (hv : ∀ f ∈ enumeratedFiles s env, validateFrontmatter f.state = true)
    (hm : env.status.modified = []) (hc : env.status.created = [])
    (hd : env.status.deleted = []) :
    (updateBlog s env).outcome = .noChanges ∧
      (updateBlog s env).ops = [.add (s.contentFolder ++ "/*"), .status] ∧
      (∀ m b, GitOp.commit m b ∉ (updateBlog s env).ops) ∧
      GitOp.push ∉ (updateBlog s env).ops := by
  have hfind : (enumeratedFiles s env).find?
      (fun f => !validateFrontmatter f.state) = none :=
    List.find?_eq_none.mpr (fun f hf => by simp [hv f hf])
  unfold updateBlog
  simp [hg, hfind, hm, hc, hd]

theorem updateBlog_no_changes_witness :
    (updateBlog ⟨"", "src/content/blog", "Blog", ""⟩
        ⟨true, [], ⟨[], [], []⟩, "t"⟩).outcome = .noChanges ∧
      (updateBlog ⟨"", "src/content/blog", "Blog", ""⟩
        ⟨true, [], ⟨[], [], []⟩, "t"⟩).ops = [.add ("src/content/blog" ++ "/*"), .status] ∧
      GitOp.push ∉ (updateBlog ⟨"", "src/content/blog", "Blog", ""⟩
        ⟨true, [], ⟨[], [], []⟩, "t"⟩).ops := by
  have h := updateBlog_no_changes ⟨"", "src/content/blog", "Blog", ""⟩
    ⟨true, [], ⟨[], [], []⟩, "t"⟩ rfl
    (by intro f hf; simp [enumeratedFiles] at hf) rfl rfl rfl
  exact ⟨h.1, h.2.1, h.2.2.2⟩

/-- C9: enumeration selects by string prefix on the vault path, so any
markdown file whose path merely extends the symlink name (such as one in a
sibling folder) is enumerated, and its validation failure makes the whole
attempt end with a validation failure and an empty git trace. -/
theorem enumeration_by_string_prefix (s : Settings) (env : PublishEnv) (f : MdFile)
    (hg : env.gitConfigured = true) (hf : f ∈ env.vaultFiles)
    (hpre : jsStartsWith f.path s.symlinkName = true)
    (hval : validateFrontmatter f.state = false) :
    f ∈ enumeratedFiles s env ∧
      ∃ n, updateBlog s env = ⟨.validationFailed n, []⟩ := by
  have hmem : f ∈ enumeratedFiles s env := List.mem_filter.mpr ⟨hf, hpre⟩
  refine ⟨hmem, ?_⟩
  have hsome : ((enumeratedFiles s env).find?
      (fun f => !validateFrontmatter f.state)).isSome :=
    List.find?_isSome.mpr ⟨f, hmem, by simp [hval]⟩
  obtain ⟨g, hgsome⟩ := Option.isSome_iff_exists.mp hsome
  refine ⟨g.name, ?_⟩
  unfold updateBlog
  simp [hg, hgsome]

theorem enumeration_by_string_prefix_witness :
    (⟨"Blog-drafts/x.md", "x.md", .unreadable⟩ : MdFile) ∈
        enumeratedFiles ⟨"", "src/content/blog", "Blog", ""⟩
          ⟨true, [⟨"Blog-drafts/x.md", "x.md", .unreadable⟩], ⟨[], [], []⟩, "t"⟩ ∧
      (updateBlog ⟨"", "src/content/blog", "Blog", ""⟩
        ⟨true, [⟨"Blog-drafts/x.md", "x.md", .unreadable⟩], ⟨[], [], []⟩, "t"⟩).ops = [] := by
  have h := enumeration_by_string_prefix ⟨"", "src/content/blog", "Blog", ""⟩
    ⟨true, [⟨"Blog-drafts/x.md", "x.md", .unreadable⟩], ⟨[], [], []⟩, "t"⟩
    ⟨"Blog-drafts/x.md", "x.md", .unreadable⟩ rfl (by decide) (by decide) (by decide)
  obtain ⟨hm, n, hn⟩ := h
  exact ⟨hm, by rw [hn]⟩

/-- C10: validateFrontmatter is total at its boundary: it answers true
exactly when its try block succeeds, and every exception the body can
raise (read, parse, or schema) is caught and mapped to false. -/
theorem validateFrontmatter_total (fst : FileState) :
    (validateFrontmatter fst = true ↔ validateAttempt fst = .ok ()) ∧
      (∀ e, validateAttempt fst = .error e → validateFrontmatter fst = false) := by
  constructor
  · unfold validateFrontmatter
    cases h : validateAttempt fst with
    | ok u => cases u; simp
    | error e => simp [h]
  · intro e he
    unfold validateFrontmatter
    simp [he]

theorem validateFrontmatter_total_witness :
    validateFrontmatter .unreadable = false :=
  (validateFrontmatter_total .unreadable).2 .readError rfl

theorem checkString_valid (name : String) (o : Option YamlValue)
    (h : ∀ v, o = some v → isString v = true) :
    checkString name o = if o.isNone then [⟨name, "Required"⟩] else [] := by
  cases ho : o with
  | none => rfl
  | some v => simp [checkString, h v ho]

theorem checkDate_valid (name : String) (o : Option YamlValue)
    (h : ∀ v, o = some v → dateCoercible v = true) :
    checkDate name o = if o.isNone then [⟨name, "Invalid date"⟩] else [] := by
  cases ho : o with
  | none => rfl
  | some v => simp [checkDate, h v ho]

theorem checkOptString_nil (name : String) (o : Option YamlValue)
    (h : ∀ v, o = some v → isString v = true) : checkOptString name o = [] := by
  cases ho : o with
  | none => rfl
  | some v => simp [checkOptString, h v ho]

theorem checkOptDate_nil (name : String) (o : Option YamlValue)
    (h : ∀ v, o = some v → dateCoercible v = true) : checkOptDate name o = [] := by
  cases ho : o with
  | none => rfl
  | some v => simp [checkOptDate, h v ho]

theorem checkOptBool_nil (name : String) (o : Option YamlValue)
    (h : ∀ v, o = some v → isBool v = true) : checkOptBool name o = [] := by
  cases ho : o with
  | none => rfl
  | some v => simp [checkOptBool, h v ho]

/-- C6: one call reports every failing field, not just the first: on an
item whose only defect is that exactly two of the three required fields
are absent, the single notice lists exactly two field failures, one per
missing field and in schema order. -/
theorem validate_reports_each_missing_field (d : FmData)
    (h2 : (missingRequired d).length = 2)
    (ht : ∀ v, d.title = some v → isString v = true)
    (hde : ∀ v, d.description = some v → isString v = true)
    (hp : ∀ v, d.pubDate = some v → dateCoercible v = true)
    (hu : ∀ v, d.updatedDate = some v → dateCoercible v = true)
    (hh : ∀ v, d.heroImage = some v → isString v = true)
    (hb : ∀ v, d.published = some v → isBool v = true) :
    (reportedIssues (.parsed d)).map Issue.path = missingRequired d ∧
      (reportedIssues (.parsed d)).length = 2 := by
  have hiss : BlogSchema.issues d =
      (if d.title.isNone then [⟨"title", "Required"⟩] else [])
        ++ (if d.description.isNone then [⟨"description", "Required"⟩] else [])
        ++ (if d.pubDate.isNone then [⟨"pubDate", "Invalid date"⟩] else []) := by
    simp [BlogSchema.issues, checkString_valid "title" d.title ht,
      checkString_valid "description" d.description hde,
      checkDate_valid "pubDate" d.pubDate hp,
      checkOptDate_nil "updatedDate" d.updatedDate hu,
      checkOptString_nil "heroImage" d.heroImage hh,
      checkOptBool_nil "published" d.published hb]
  rw [reportedIssues_parsed, hiss]
  cases h1 : d.title.isNone <;> cases hD1 : d.description.isNone <;>
    cases hP1 : d.pubDate.isNone <;>
      simp [missingRequired, h1, hD1, hP1] at h2 ⊢

theorem validate_reports_each_missing_field_witness :
    (reportedIssues (.parsed ⟨none, none, some .vdate, none, none, none⟩)).map
        Issue.path
      = missingRequired ⟨none, none, some .vdate, none, none, none⟩ ∧
      (reportedIssues (.parsed ⟨none, none, some .vdate, none, none, none⟩)).length
        = 2 :=
  validate_reports_each_missing_field ⟨none, none, some .vdate, none, none, none⟩
    (by decide) (by simp) (by simp)
    (by intro v h; simp only [Option.some.injEq] at h; subst h; rfl)
    (by simp) (by simp) (by simp)
